import Mathlib

/-!
Verification of `jules-scratch/verification/verify_mui_ui.py`.

The script is a linear sequence of Playwright calls inside a
`with sync_playwright() as p:` block:

  browser = p.chromium.launch(headless=True)
  page = browser.new_page()
  page.goto("http://localhost:8080/")
  page.wait_for_selector("h1")
  page.screenshot(path="jules-scratch/verification/verification.png")
  browser.close()

We embed the script shallowly: each library call is a `Step`; whether a
call succeeds is decided by an external `Env` record (the state of the
server, the filesystem, the browser binary); the observable effects are a
trace of attempted steps, a process exit code, the set of files on disk
and whether a browser subprocess spawned by the script is still running.
Python exception semantics are embedded by the `attempt` combinator: once
a call has failed, the remaining statements of the `with` body are
skipped; the context-manager exit (Playwright teardown) still runs and
terminates any browser the script launched, and the exception then
terminates the interpreter with exit status 1.
-/

namespace VerifyMuiUi

/-- The fixed navigation target hard-coded at line 7 of the script. -/
def targetURL : String := "http://localhost:8080/"

/-- The fixed selector waited for at line 8 of the script. -/
def headingSelector : String := "h1"

/-- The fixed output path passed to `page.screenshot` at line 9. -/
def screenshotPath : String := "jules-scratch/verification/verification.png"

/-- One observable library call made by the script.  `launch` records the
browser type requested and the value passed for the headless option;
`screenshot` records the output path and the value of the full-page
option (the script leaves it at the Playwright default, `false`). -/
inductive Step where
  | launch (browserType : String) (headless : Bool)
  | newPage
  | goto (url : String)
  | waitForSelector (sel : String)
  | screenshot (path : String) (fullPage : Bool)
  | closeBrowser
  deriving DecidableEq, Repr

/-- External conditions of one run: which of the five fallible library
calls succeeds (browser binary present, server reachable, heading
rendered in time, filesystem writable), and the rendered pixel data the
browser would produce for the screenshot. -/
structure Env where
  launch_ok : Bool
  newPage_ok : Bool
  goto_ok : Bool
  wait_ok : Bool
  screenshot_ok : Bool
  shotData : List Nat
  deriving DecidableEq, Repr

/-- Observable machine state: whether a browser subprocess spawned by the
script is running, and the files on disk (path paired with contents as a
byte list). -/
structure World where
  browserRunning : Bool
  files : List (String × List Nat)
  deriving DecidableEq, Repr

/-- Result of one run of the script: the trace of attempted library
calls, the process exit status, and the final world. -/
structure RunResult where
  trace : List Step
  exitCode : Nat
  world : World
  deriving DecidableEq, Repr

/-- The eight-byte PNG file signature; every PNG file starts with it, so
a successfully written screenshot file is non-empty. -/
def pngSignature : List Nat := [137, 80, 78, 71, 13, 10, 26, 10]

/-- The bytes `page.screenshot` writes on success: a PNG encoding of the
rendered pixels. -/
def pngBytes (env : Env) : List Nat := pngSignature ++ env.shotData

/-- Writing a file replaces any previous file at the same path. -/
def writeFile (fs : List (String × List Nat)) (p : String) (data : List Nat) :
    List (String × List Nat) :=
  (p, data) :: fs.filter (fun e => e.1 ≠ p)

/-- Reading a file: the contents stored at the path, if present. -/
def readFile (fs : List (String × List Nat)) (p : String) : Option (List Nat) :=
  (fs.find? (fun e => e.1 = p)).map Prod.snd

/-- In-flight state while the `with` body executes. -/
structure S where
  trace : List Step
  world : World
  failed : Bool
  deriving DecidableEq, Repr

/-- Run one statement of the `with` body: skipped entirely when an
earlier statement already raised; otherwise the call is attempted (it
enters the trace), applies its effect when it succeeds, and raises
otherwise. -/
def attempt (s : S) (st : Step) (ok : Bool) (eff : World → World) : S :=
  if s.failed then s
  else { trace := s.trace ++ [st]
         world := if ok then eff s.world else s.world
         failed := !ok }

/-- The full sequence of library calls the script body makes, in source
order (lines 5 through 10). -/
def scriptSteps : List Step :=
  [Step.launch "chromium" true,
   Step.newPage,
   Step.goto targetURL,
   Step.waitForSelector headingSelector,
   Step.screenshot screenshotPath false,
   Step.closeBrowser]

/-- The body of `run()` in the script: the six statements of the `with`
block in order, then the context-manager exit.  Playwright teardown on
`with` exit stops the driver and terminates any browser it launched,
whether or not the body raised; an uncaught exception then exits the
interpreter with status 1, otherwise the script exits with status 0. -/
def run (env : Env) (w : World) : RunResult :=
  let s0 : S := { trace := [], world := w, failed := false }
  let s1 := attempt s0 (Step.launch "chromium" true) env.launch_ok
              (fun wo => { wo with browserRunning := true })
  let s2 := attempt s1 Step.newPage env.newPage_ok id
  let s3 := attempt s2 (Step.goto targetURL) env.goto_ok id
  let s4 := attempt s3 (Step.waitForSelector headingSelector) env.wait_ok id
  let s5 := attempt s4 (Step.screenshot screenshotPath false) env.screenshot_ok
              (fun wo => { wo with files := writeFile wo.files screenshotPath (pngBytes env) })
  let s6 := attempt s5 Step.closeBrowser true
              (fun wo => { wo with browserRunning := false })
  let wFinal := if env.launch_ok then { s6.world with browserRunning := false } else s6.world
  { trace := s6.trace
    exitCode := if s6.failed then 1 else 0
    world := wFinal }

/-- The script entry point: under `if __name__ == "__main__":` the script
calls `run()`; neither `run` nor the module body reads `sys.argv` or
`os.environ`, so both are ignored. -/
def scriptMain (argv : List String) (sysEnv : List (String × String))
    (env : Env) (w : World) : RunResult :=
  run env w

/-- All five fallible library calls succeed. -/
def allOk (env : Env) : Bool :=
  env.launch_ok && env.newPage_ok && env.goto_ok && env.wait_ok && env.screenshot_ok

/-- How many of the script's statements are reached (attempted) under the
given conditions. -/
def okCount (env : Env) : Nat :=
  if env.launch_ok then
    if env.newPage_ok then
      if env.goto_ok then
        if env.wait_ok then
          if env.screenshot_ok then 6 else 5
        else 4
      else 3
    else 2
  else 1

/-- A run in which every call succeeds and the rendered page is blank. -/
def envAll : Env :=
  { launch_ok := true, newPage_ok := true, goto_ok := true,
    wait_ok := true, screenshot_ok := true, shotData := [] }

/-- A run in which the element wait times out. -/
def envNoHeading : Env :=
  { envAll with wait_ok := false }

/-- A run in which navigation fails (no server listening). -/
def envNoServer : Env :=
  { envAll with goto_ok := false }

/-- A run in which the screenshot file write fails. -/
def envNoWrite : Env :=
  { envAll with screenshot_ok := false }

/-- An initial world with no browser running and an empty disk. -/
def emptyWorld : World := { browserRunning := false, files := [] }

-- Helper lemmas shared by the claim theorems.

theorem run_trace (env : Env) (w : World) :
    (run env w).trace = scriptSteps.take (okCount env) := by
  obtain ⟨l, n, g, wt, sc, d⟩ := env
  cases l <;> cases n <;> cases g <;> cases wt <;> cases sc <;> rfl

theorem run_exitCode (env : Env) (w : World) :
    (run env w).exitCode = if allOk env then 0 else 1 := by
  obtain ⟨l, n, g, wt, sc, d⟩ := env
  cases l <;> cases n <;> cases g <;> cases wt <;> cases sc <;> rfl

theorem run_files (env : Env) (w : World) :
    (run env w).world.files =
      if allOk env then writeFile w.files screenshotPath (pngBytes env) else w.files := by
  obtain ⟨l, n, g, wt, sc, d⟩ := env
  cases l <;> cases n <;> cases g <;> cases wt <;> cases sc <;> rfl

theorem run_browserRunning (env : Env) (w : World) (h : env.launch_ok = true) :
    (run env w).world.browserRunning = false := by
  obtain ⟨l, n, g, wt, sc, d⟩ := env
  cases l
  · exact Bool.noConfusion h
  · cases n <;> cases g <;> cases wt <;> cases sc <;> rfl

theorem readFile_writeFile (fs : List (String × List Nat)) (p : String) (d : List Nat) :
    readFile (writeFile fs p d) p = some d := by
  simp [readFile, writeFile, List.find?]

theorem writeFile_paths (fs : List (String × List Nat)) (p : String) (d₁ d₂ : List Nat) :
    (writeFile (writeFile fs p d₁) p d₂).map Prod.fst =
      (writeFile fs p d₁).map Prod.fst := by
  simp [writeFile, List.filter_filter]

-- Claim theorems.

/-- C1: every run attempts the script's fixed sequence of library calls
in source order — launch chromium headless, open a page, navigate to the
fixed URL, wait for "h1", screenshot to the fixed path, close the
browser — with no branching, retries or loops: the trace equals
`scriptSteps.take (okCount env)`, cut exactly at the first failing call
(`okCount` reads the success flags in source order and stops at the
first failure), so each later step is attempted only if every earlier
step succeeded; and when every call succeeds the full sequence is
performed. -/
theorem c1_linear_sequence (env : Env) (w : World) :
    (run env w).trace = scriptSteps.take (okCount env) ∧
    (allOk env = true → (run env w).trace = scriptSteps) := by
  refine ⟨run_trace env w, fun h => ?_⟩
  simp only [allOk, Bool.and_eq_true] at h
  obtain ⟨⟨⟨⟨hl, hn⟩, hg⟩, hw⟩, hs⟩ := h
  have h6 : okCount env = 6 := by simp [okCount, hl, hn, hg, hw, hs]
  rw [run_trace, h6]
  rfl

/-- Witness for C1: a run whose navigation fails attempts exactly the
calls up to and including the failing goto, and the all-success run
performs the full sequence. -/
theorem c1_linear_sequence_witness :
    ((run envNoServer emptyWorld).trace = scriptSteps.take (okCount envNoServer)) ∧
    (allOk envAll = true ∧ (run envAll emptyWorld).trace = scriptSteps) :=
  ⟨(c1_linear_sequence envNoServer emptyWorld).1,
   by decide, (c1_linear_sequence envAll emptyWorld).2 (by decide)⟩

/-- C2: when the server is reachable, the heading renders within the
timeout and the file write succeeds, the run exits with status 0 and a
non-empty image file is on disk at the fixed output path. -/
theorem c2_success_exit_zero (env : Env) (w : World) (h : allOk env = true) :
    (run env w).exitCode = 0 ∧
    readFile (run env w).world.files screenshotPath = some (pngBytes env) ∧
    pngBytes env ≠ [] := by
  refine ⟨by simp [run_exitCode, h], ?_, by simp [pngBytes, pngSignature]⟩
  simp [run_files, h, readFile_writeFile]

/-- Witness for C2 at a concrete all-success run on an empty disk. -/
theorem c2_success_exit_zero_witness :
    allOk envAll = true ∧
    ((run envAll emptyWorld).exitCode = 0 ∧
     readFile (run envAll emptyWorld).world.files screenshotPath = some (pngBytes envAll) ∧
     pngBytes envAll ≠ []) :=
  ⟨by decide, c2_success_exit_zero envAll emptyWorld (by decide)⟩

/-- C3: when navigation succeeds but no "h1" appears within the wait
timeout, the run exits with a non-zero status, the disk is unchanged and
the screenshot call is never reached. -/
theorem c3_wait_timeout_aborts (env : Env) (w : World)
    (h1 : env.launch_ok = true) (h2 : env.newPage_ok = true)
    (h3 : env.goto_ok = true) (h4 : env.wait_ok = false) :
    (run env w).exitCode ≠ 0 ∧
    (run env w).world.files = w.files ∧
    Step.screenshot screenshotPath false ∉ (run env w).trace := by
  have hA : allOk env = false := by simp [allOk, h4]
  refine ⟨by simp [run_exitCode, hA], by simp [run_files, hA], ?_⟩
  have h4' : okCount env = 4 := by simp [okCount, h1, h2, h3, h4]
  rw [run_trace, h4']
  decide

/-- Witness for C3 at a concrete run whose element wait times out. -/
theorem c3_wait_timeout_aborts_witness :
    (envNoHeading.launch_ok = true ∧ envNoHeading.newPage_ok = true ∧
     envNoHeading.goto_ok = true ∧ envNoHeading.wait_ok = false) ∧
    ((run envNoHeading emptyWorld).exitCode ≠ 0 ∧
     (run envNoHeading emptyWorld).world.files = emptyWorld.files ∧
     Step.screenshot screenshotPath false ∉ (run envNoHeading emptyWorld).trace) :=
  ⟨by decide,
   c3_wait_timeout_aborts envNoHeading emptyWorld rfl rfl rfl rfl⟩

/-- C4: whenever the browser launch succeeded, no browser subprocess
spawned by the script remains running at exit, on every exit path. -/
theorem c4_browser_released (env : Env) (w : World) (h : env.launch_ok = true) :
    (run env w).world.browserRunning = false :=
  run_browserRunning env w h

/-- Witness for C4 at a run whose screenshot write fails: the browser is
still released. -/
theorem c4_browser_released_witness :
    envNoWrite.launch_ok = true ∧
    (run envNoWrite emptyWorld).world.browserRunning = false :=
  ⟨rfl, c4_browser_released envNoWrite emptyWorld rfl⟩

/-- C5: when no server answers at the target address (navigation fails),
the run exits with a non-zero status, the disk is unchanged and the
screenshot call is never reached, so no output file is produced. -/
theorem c5_no_server_aborts (env : Env) (w : World)
    (h1 : env.launch_ok = true) (h2 : env.newPage_ok = true)
    (h3 : env.goto_ok = false) :
    (run env w).exitCode ≠ 0 ∧
    (run env w).world.files = w.files ∧
    Step.screenshot screenshotPath false ∉ (run env w).trace := by
  have hA : allOk env = false := by simp [allOk, h3]
  refine ⟨by simp [run_exitCode, hA], by simp [run_files, hA], ?_⟩
  have h3' : okCount env = 3 := by simp [okCount, h1, h2, h3]
  rw [run_trace, h3']
  decide

/-- Witness for C5 at a concrete run whose navigation fails. -/
theorem c5_no_server_aborts_witness :
    (envNoServer.launch_ok = true ∧ envNoServer.newPage_ok = true ∧
     envNoServer.goto_ok = false) ∧
    ((run envNoServer emptyWorld).exitCode ≠ 0 ∧
     (run envNoServer emptyWorld).world.files = emptyWorld.files ∧
     Step.screenshot screenshotPath false ∉ (run envNoServer emptyWorld).trace) :=
  ⟨by decide, c5_no_server_aborts envNoServer emptyWorld rfl rfl rfl⟩

/-- C6: when every step up to the element wait succeeds but the
screenshot file write fails, the error propagates uncaught and the run
exits with a non-zero status. -/
theorem c6_write_failure_fatal (env : Env) (w : World)
    (h1 : env.launch_ok = true) (h2 : env.newPage_ok = true)
    (h3 : env.goto_ok = true) (h4 : env.wait_ok = true)
    (h5 : env.screenshot_ok = false) :
    (run env w).exitCode ≠ 0 := by
  have hA : allOk env = false := by simp [allOk, h5]
  simp [run_exitCode, hA]

/-- Witness for C6 at a concrete run whose file write fails. -/
theorem c6_write_failure_fatal_witness :
    (envNoWrite.launch_ok = true ∧ envNoWrite.newPage_ok = true ∧
     envNoWrite.goto_ok = true ∧ envNoWrite.wait_ok = true ∧
     envNoWrite.screenshot_ok = false) ∧
    (run envNoWrite emptyWorld).exitCode ≠ 0 :=
  ⟨by decide, c6_write_failure_fatal envNoWrite emptyWorld rfl rfl rfl rfl rfl⟩

/-- C7: two successive successful runs are idempotent on disk artifacts —
the second run overwrites the file written by the first at the same path,
and the set of paths on disk after two runs equals the set after one. -/
theorem c7_idempotent_artifacts (env₁ env₂ : Env) (w : World)
    (h1 : allOk env₁ = true) (h2 : allOk env₂ = true) :
    ((run env₂ (run env₁ w).world).world.files.map Prod.fst
        = (run env₁ w).world.files.map Prod.fst) ∧
    readFile (run env₂ (run env₁ w).world).world.files screenshotPath
        = some (pngBytes env₂) := by
  have f1 : (run env₁ w).world.files = writeFile w.files screenshotPath (pngBytes env₁) := by
    simp [run_files, h1]
  have f2 : (run env₂ (run env₁ w).world).world.files
      = writeFile (run env₁ w).world.files screenshotPath (pngBytes env₂) := by
    simp [run_files, h2]
  rw [f2, f1]
  exact ⟨writeFile_paths w.files screenshotPath (pngBytes env₁) (pngBytes env₂),
         readFile_writeFile (writeFile w.files screenshotPath (pngBytes env₁))
           screenshotPath (pngBytes env₂)⟩

/-- Witness for C7: two concrete successful runs starting from an empty
disk leave the same set of paths as one. -/
theorem c7_idempotent_artifacts_witness :
    (allOk envAll = true ∧ allOk envAll = true) ∧
    (((run envAll (run envAll emptyWorld).world).world.files.map Prod.fst
        = (run envAll emptyWorld).world.files.map Prod.fst) ∧
     readFile (run envAll (run envAll emptyWorld).world).world.files screenshotPath
        = some (pngBytes envAll)) :=
  ⟨⟨by decide, by decide⟩,
   c7_idempotent_artifacts envAll envAll emptyWorld (by decide) (by decide)⟩

/-- C8: the script reads neither command-line arguments nor environment
variables, so two invocations differing only in those perform identical
runs — same trace, exit status and world. -/
theorem c8_config_independent (a₁ a₂ : List String)
    (e₁ e₂ : List (String × String)) (env : Env) (w : World) :
    scriptMain a₁ e₁ env w = scriptMain a₂ e₂ env w := rfl

/-- C9: every run starts with a chromium launch whose headless option is
true, and every launch call in any trace passes headless as true. -/
theorem c9_launch_headless (env : Env) (w : World) :
    (run env w).trace.head? = some (Step.launch "chromium" true) ∧
    ∀ bt b, Step.launch bt b ∈ (run env w).trace → b = true := by
  constructor
  · obtain ⟨l, n, g, wt, sc, d⟩ := env
    cases l <;> cases n <;> cases g <;> cases wt <;> cases sc <;> rfl
  · intro bt b hb
    rw [run_trace] at hb
    have hs := List.take_subset (okCount env) scriptSteps hb
    simp [scriptSteps] at hs
    exact hs.2

/-- Witness for C9: the launch call of the all-success run is headless. -/
theorem c9_launch_headless_witness :
    (Step.launch "chromium" true ∈ (run envAll emptyWorld).trace) ∧ true = true :=
  ⟨by decide, (c9_launch_headless envAll emptyWorld).2 "chromium" true (by decide)⟩

/-- C10: the screenshot call never sets the full-page option — any
screenshot step in any trace has the full-page flag false (and targets
the fixed output path), so the capture covers only the default
viewport. -/
theorem c10_screenshot_viewport_only (env : Env) (w : World)
    (p : String) (fp : Bool)
    (h : Step.screenshot p fp ∈ (run env w).trace) :
    fp = false ∧ p = screenshotPath := by
  rw [run_trace] at h
  have hs := List.take_subset (okCount env) scriptSteps h
  simp [scriptSteps] at hs
  exact ⟨hs.2, hs.1⟩

/-- Witness for C10 at the all-success run's screenshot step. -/
theorem c10_screenshot_viewport_only_witness :
    (Step.screenshot screenshotPath false ∈ (run envAll emptyWorld).trace) ∧
    (false = false ∧ screenshotPath = screenshotPath) :=
  ⟨by decide,
   c10_screenshot_viewport_only envAll emptyWorld screenshotPath false (by decide)⟩

end VerifyMuiUi
